import Mathlib

/-!
Shallow embedding of `src/jl_db_comp/routes.py`: a Jupyter-server HTTP GET
handler that answers PostgreSQL autocomplete queries against the database
catalog (`information_schema`).

The catalog is modelled as lists of rows of the three `information_schema`
views the code reads (`schemata`, `tables`, `columns`); each canned SQL
statement of the handler becomes a Lean function over that catalog, with SQL
`LIKE` and `LOWER` modelled explicitly.  The driver (`psycopg2`) is modelled
by a behaviour record saying whether `connect` or `execute` raises, and the
handler's `try/except/finally` structure becomes explicit case analysis that
also logs how many connections were opened and how many remain open.
-/

namespace JlDbComp

/-- One row of `information_schema.tables`. -/
structure TableRow where
  table_schema : String
  table_name : String
  table_type : String
  deriving DecidableEq, Repr

/-- One row of `information_schema.columns`. -/
structure ColumnRow where
  table_schema : String
  table_name : String
  column_name : String
  data_type : String
  ordinal_position : Nat
  deriving DecidableEq, Repr

/-- The database state visible through the three `information_schema` views
the handler queries. -/
structure Catalog where
  schemata : List String
  tables : List TableRow
  columns : List ColumnRow
  deriving DecidableEq, Repr

/-- Lower-casing as used by both Python's `str.lower()` and SQL `LOWER`
(character-wise case mapping over the string's characters). -/
def sqlLower (s : String) : String :=
  ⟨s.data.map Char.toLower⟩

/-- Code-point lexicographic order on character lists: the deterministic
string order a fixed-collation `ORDER BY` produces. -/
def charListLe : List Char → List Char → Bool
  | [], _ => true
  | _ :: _, [] => false
  | a :: as, b :: bs => if a = b then charListLe as bs else decide (a < b)

/-- SQL `LIKE` pattern matching (PostgreSQL semantics, default escape
character backslash): `_` matches any single character, `%` matches any
sequence of characters, a backslash makes the following pattern character
literal.  A pattern ending in a lone backslash matches nothing (the handler
never produces one: its patterns always end in `%`). -/
def likeMatch : List Char → List Char → Bool
  | [], s => s.isEmpty
  | p₀ :: p, s =>
    if p₀ = '%' then (s.tails).any (fun t => likeMatch p t)
    else if p₀ = '_' then
      match s with
      | [] => false
      | _ :: s' => likeMatch p s'
    else if p₀ = '\\' then
      match p with
      | [] => false
      | e :: p' =>
        match s with
        | [] => false
        | c :: s' => e == c && likeMatch p' s'
    else
      match s with
      | [] => false
      | c :: s' => p₀ == c && likeMatch p s'

/-- Python truthiness of an optional string parameter: `None` and `""` are
falsy, every other string is truthy. -/
def pyTruthy : Option String → Bool
  | none => false
  | some s => !(s == "")

/-- The string carried by an optional parameter (`none` reads as `""`; the
handler only reads it on the truthy path). -/
def pyStr : Option String → String
  | none => ""
  | some s => s

/-- `SELECT schema_name FROM information_schema.schemata WHERE
LOWER(schema_name) = p` followed by `fetchone() is not None`
(routes.py, the schema-existence probe). -/
def querySchemaExists (cat : Catalog) (p : String) : Bool :=
  cat.schemata.any (fun n => sqlLower n == p)

/-- Row order produced by `ORDER BY table_name`. -/
def tableRowLe (a b : TableRow) : Prop :=
  charListLe a.table_name.data b.table_name.data = true

instance : DecidableRel tableRowLe := fun a b =>
  inferInstanceAs (Decidable (charListLe a.table_name.data b.table_name.data = true))

/-- Row order produced by `ORDER BY ordinal_position`. -/
def columnRowLe (a b : ColumnRow) : Prop :=
  a.ordinal_position ≤ b.ordinal_position

instance : DecidableRel columnRowLe := fun a b =>
  inferInstanceAs (Decidable (a.ordinal_position ≤ b.ordinal_position))

/-- `SELECT table_name, table_type FROM information_schema.tables WHERE
table_schema = sch AND table_type IN ('BASE TABLE', 'VIEW') AND
LOWER(table_name) LIKE pat ORDER BY table_name`. -/
def queryTables (cat : Catalog) (sch pat : String) : List TableRow :=
  List.insertionSort tableRowLe
    (cat.tables.filter (fun t =>
      t.table_schema == sch &&
      (t.table_type == "BASE TABLE" || t.table_type == "VIEW") &&
      likeMatch pat.data (sqlLower t.table_name).data))

/-- `SELECT table_name, column_name, data_type FROM
information_schema.columns WHERE table_schema = sch AND LOWER(table_name) =
tbl AND LOWER(column_name) LIKE pat ORDER BY ordinal_position`. -/
def queryColumns (cat : Catalog) (sch tbl pat : String) : List ColumnRow :=
  List.insertionSort columnRowLe
    (cat.columns.filter (fun c =>
      c.table_schema == sch && sqlLower c.table_name == tbl &&
      likeMatch pat.data (sqlLower c.column_name).data))

/-- A `tables` entry of the response. -/
structure TableEntry where
  name : String
  type : String
  deriving DecidableEq, Repr

/-- A `columns` entry of the response. -/
structure ColumnEntry where
  name : String
  table : String
  dataType : String
  type : String
  deriving DecidableEq, Repr

/-- The dictionary `_fetch_completions` returns on success. -/
structure Envelope where
  status : String
  tables : List TableEntry
  columns : List ColumnEntry
  deriving DecidableEq, Repr

/-- Row shaping for the tables queries: `"view" if row[1] == 'VIEW' else
"table"`. -/
def rowToTableEntry (r : TableRow) : TableEntry :=
  { name := r.table_name
    type := if r.table_type == "VIEW" then "view" else "table" }

/-- Row shaping for the columns queries. -/
def rowToColumnEntry (r : ColumnRow) : ColumnEntry :=
  { name := r.column_name
    table := r.table_name
    dataType := r.data_type
    type := "column" }

/-- The catalog-dependent part of
`PostgresCompletionsHandler._fetch_completions` (the dispatch over the three
canned lookups), assuming every `cursor.execute` succeeds.  Mirrors the
Python `if schema_or_table: ... elif table: ... else: ...` chain, where
presence is Python truthiness. -/
def fetchCompletionsPure (cat : Catalog) (schema pfx : String)
    (table schema_or_table : Option String) : Envelope :=
  if pyTruthy schema_or_table then
    if querySchemaExists cat (sqlLower (pyStr schema_or_table)) then
      { status := "success"
        tables :=
          (queryTables cat (pyStr schema_or_table) (pfx ++ "%")).map rowToTableEntry
        columns := [] }
    else
      { status := "success"
        tables := []
        columns :=
          (queryColumns cat schema (sqlLower (pyStr schema_or_table))
            (pfx ++ "%")).map rowToColumnEntry }
  else if pyTruthy table then
    { status := "success"
      tables := []
      columns :=
        (queryColumns cat schema (sqlLower (pyStr table)) (pfx ++ "%")).map
          rowToColumnEntry }
  else
    { status := "success"
      tables := (queryTables cat schema (pfx ++ "%")).map rowToTableEntry
      columns := [] }

/-- A Python exception as the handler distinguishes them: `psycopg2.Error`
versus any other `Exception`. -/
inductive PyExn where
  | pgError (msg : String)
  | otherError (msg : String)
  deriving DecidableEq, Repr

/-- The driver and database as seen by one request: the catalog served, and
whether `psycopg2.connect` or the first `cursor.execute` raises. -/
structure DbModel where
  catalog : Catalog
  connectRaises : Option PyExn
  queryRaises : Option PyExn
  deriving DecidableEq, Repr

/-- Connection accounting for one request: how many connections
`psycopg2.connect` opened, and how many are still open at the point
observed. -/
structure ConnLog where
  opens : Nat
  openNow : Nat
  deriving DecidableEq, Repr

/-- `_fetch_completions` with its `try/finally` made explicit: `conn = None`;
the `try` block connects (which may raise, leaving `conn` unset) and then
queries (which may raise after the connection exists); the `finally` block
runs `conn.close()` whenever `conn` is set, on normal return and on
exception alike.  Returns the outcome (result or escaping exception)
together with the connection accounting after the `finally` block. -/
def fetchCompletionsRun (db : DbModel) (schema pfx : String)
    (table schema_or_table : Option String) : Except PyExn Envelope × ConnLog :=
  match db.connectRaises with
  | some e =>
    -- connect raised: `conn` is still None, the finally block closes nothing
    (Except.error e, { opens := 0, openNow := 0 })
  | none =>
    -- connect returned: one connection is open while the body runs
    let tryResult : Except PyExn Envelope :=
      match db.queryRaises with
      | some e => Except.error e
      | none =>
        Except.ok (fetchCompletionsPure db.catalog schema pfx table schema_or_table)
    -- finally: `if conn: conn.close()`
    (tryResult, { opens := 1, openNow := 1 - 1 })

/-- Python `s.split('\n')`: the groups of characters between newline
separators, in order (an empty string yields one empty group). -/
def splitNl : List Char → List (List Char)
  | [] => [[]]
  | c :: cs =>
    if c = '\n' then [] :: splitNl cs
    else
      match splitNl cs with
      | [] => [[c]]
      | g :: gs => (c :: g) :: gs

/-- `str(e).split('\n')[0]`, the first line of a driver error message. -/
def pyFirstLine (s : String) : String :=
  ⟨(splitNl s.data).headD []⟩

/-- The JSON body the handler finishes with.  `none` in `tables`/`columns`/
`message` means the corresponding key is absent from the JSON object. -/
structure Body where
  status : String
  message : Option String
  tables : Option (List TableEntry)
  columns : Option (List ColumnEntry)
  deriving DecidableEq, Repr

/-- An HTTP response: the status code set on the handler (200 unless
`set_status(500)` ran) and the JSON body. -/
structure Response where
  httpStatus : Nat
  body : Body
  deriving DecidableEq, Repr

/-- Process state the handler reads: the module-level `PSYCOPG2_AVAILABLE`
flag, the `POSTGRES_URL` environment variable, and the database the
connection string reaches. -/
structure World where
  psycopg2Available : Bool
  postgresUrlEnv : Option String
  db : DbModel
  deriving DecidableEq, Repr

/-- The query parameters of one GET request; `none` means the parameter is
absent (so `get_argument` returns its default). -/
structure Request where
  db_url : Option String
  pfx : Option String
  schema : Option String
  table : Option String
  schema_or_table : Option String
  deriving DecidableEq, Repr

/-- Lines 45-48: fall back to `POSTGRES_URL` when the `db_url` parameter is
missing or empty.  (The explicit-parameter branch percent-decodes the value;
nothing downstream of the truthiness test depends on the decoded text, so
the decoding is carried implicitly.) -/
def resolveDbUrl (w : World) (req : Request) : Option String :=
  if pyTruthy req.db_url then req.db_url else w.postgresUrlEnv

/-- `self.get_argument('schema', 'public')`. -/
def reqSchema (req : Request) : String :=
  match req.schema with
  | none => "public"
  | some s => s

/-- `self.get_argument('prefix', '').lower()`. -/
def reqPfx (req : Request) : String :=
  sqlLower (pyStr req.pfx)

/-- `PostgresCompletionsHandler.get`: the full handler, from the
`PSYCOPG2_AVAILABLE` guard through parameter reads, URL fallback, the
database lookup, and the two `except` clauses.  Returns the HTTP response
and the connection accounting at handler return. -/
def handlerGet (w : World) (req : Request) : Response × ConnLog :=
  if !w.psycopg2Available then
    ({ httpStatus := 500
       body := { status := "error"
                 message := some "psycopg2 is not installed. Install with: pip install psycopg2-binary"
                 tables := none
                 columns := none } },
     { opens := 0, openNow := 0 })
  else
    if !pyTruthy (resolveDbUrl w req) then
      ({ httpStatus := 200
         body := { status := "success"
                   message := some "No database URL provided"
                   tables := some []
                   columns := some [] } },
       { opens := 0, openNow := 0 })
    else
      match fetchCompletionsRun w.db (reqSchema req) (reqPfx req)
          req.table req.schema_or_table with
      | (Except.ok env, log) =>
        ({ httpStatus := 200
           body := { status := env.status
                     message := none
                     tables := some env.tables
                     columns := some env.columns } },
         log)
      | (Except.error (PyExn.pgError m), log) =>
        ({ httpStatus := 500
           body := { status := "error"
                     message := some ("Database error: " ++ pyFirstLine m)
                     tables := some []
                     columns := some [] } },
         log)
      | (Except.error (PyExn.otherError m), log) =>
        ({ httpStatus := 500
           body := { status := "error"
                     message := some ("Server error: " ++ m)
                     tables := some []
                     columns := some [] } },
         log)

/-! ## Helper notions for the spec-side statements -/

/-- The request prefix is free of SQL `LIKE` metacharacters (`%`, `_`) and
of the escape character, so that `LIKE pfx || '%'` means a literal
"starts with pfx". -/
def noLikeWild (s : String) : Bool :=
  s.data.all (fun c => !(c == '%' || c == '_' || c == '\\'))

/-- The `tables` list claim C1 expects for a `schema_or_table` hit, written
from the claim: the base tables and views *of that schema* — matched the
same way the existence probe matched it, case-insensitively — whose
lower-cased name starts with the request prefix. -/
def claimedSchemaTables (cat : Catalog) (sot pfx : String) : List TableEntry :=
  (List.insertionSort tableRowLe
    (cat.tables.filter (fun t =>
      sqlLower t.table_schema == sqlLower sot &&
      (t.table_type == "BASE TABLE" || t.table_type == "VIEW") &&
      pfx.data.isPrefixOf (sqlLower t.table_name).data))).map rowToTableEntry

/-- The `tables` list the amended claim C1 expects: as above, but the
schema name must equal `schema_or_table` exactly (case-sensitively), which
is how the code's second query filters (`table_schema = %s` with the
original spelling). -/
def amendedSchemaTables (cat : Catalog) (sot pfx : String) : List TableEntry :=
  (List.insertionSort tableRowLe
    (cat.tables.filter (fun t =>
      t.table_schema == sot &&
      (t.table_type == "BASE TABLE" || t.table_type == "VIEW") &&
      pfx.data.isPrefixOf (sqlLower t.table_name).data))).map rowToTableEntry

/-! ## General lemmas about the embedded operations -/

theorem pyStr_some (s : String) : pyStr (some s) = s := rfl

theorem pyTruthy_none : pyTruthy none = false := rfl

theorem pyTruthy_some_of_ne {s : String} (h : s ≠ "") :
    pyTruthy (some s) = true := by
  simp [pyTruthy, h]

/-- Unfolding equation of `likeMatch` on a cons pattern. -/
theorem likeMatch_cons (p₀ : Char) (p s : List Char) :
    likeMatch (p₀ :: p) s =
      (if p₀ = '%' then (s.tails).any (fun t => likeMatch p t)
       else if p₀ = '_' then
         match s with
         | [] => false
         | _ :: s' => likeMatch p s'
       else if p₀ = '\\' then
         match p with
         | [] => false
         | e :: p' =>
           match s with
           | [] => false
           | c :: s' => e == c && likeMatch p' s'
       else
         match s with
         | [] => false
         | c :: s' => p₀ == c && likeMatch p s') := by
  rw [likeMatch.eq_def]

/-- The pattern `['%']` matches every string. -/
theorem likeMatch_pct_nil (s : List Char) : likeMatch ['%'] s = true := by
  have h : likeMatch ['%'] s = s.tails.any (fun t => likeMatch [] t) := by
    simp [likeMatch]
  rw [h]
  refine List.any_eq_true.mpr ⟨[], ?_, rfl⟩
  simp

/-- For a metacharacter-free pattern body `p`, the pattern `p ++ ['%']` is
exactly the literal "starts with `p`" test. -/
theorem likeMatch_append_pct (p : List Char)
    (hp : ∀ c ∈ p, c ≠ '%' ∧ c ≠ '_' ∧ c ≠ '\\') :
    ∀ s : List Char, likeMatch (p ++ ['%']) s = p.isPrefixOf s := by
  induction p with
  | nil => intro s; simpa [List.isPrefixOf] using likeMatch_pct_nil s
  | cons c p ih =>
    intro s
    obtain ⟨h1, h2, h3⟩ := hp c (List.mem_cons_self c p)
    have hp' : ∀ d ∈ p, d ≠ '%' ∧ d ≠ '_' ∧ d ≠ '\\' := fun d hd =>
      hp d (List.mem_cons_of_mem c hd)
    cases s with
    | nil =>
      rw [List.cons_append, likeMatch_cons, if_neg h1, if_neg h2, if_neg h3]
      rfl
    | cons d s' =>
      rw [List.cons_append, likeMatch_cons, if_neg h1, if_neg h2, if_neg h3]
      show (c == d && likeMatch (p ++ ['%']) s') = (c :: p).isPrefixOf (d :: s')
      rw [ih hp' s']
      rfl

/-- The executable `noLikeWild` check implies the propositional one. -/
theorem noLikeWild_spec {s : String} (h : noLikeWild s = true) :
    ∀ c ∈ s.data, c ≠ '%' ∧ c ≠ '_' ∧ c ≠ '\\' := by
  intro c hc
  have hb := List.all_eq_true.mp h c hc
  simp only [Bool.not_eq_true', Bool.or_eq_false_iff, beq_eq_false_iff_ne,
    ne_eq] at hb
  exact ⟨hb.1.1, hb.1.2, hb.2⟩

theorem queryTables_mem {cat : Catalog} {sch pat : String} {t : TableRow} :
    t ∈ queryTables cat sch pat ↔
      t ∈ cat.tables ∧
        (t.table_schema == sch &&
          (t.table_type == "BASE TABLE" || t.table_type == "VIEW") &&
          likeMatch pat.data (sqlLower t.table_name).data) = true := by
  unfold queryTables
  rw [List.mem_insertionSort, List.mem_filter]

theorem fetchPure_status (cat : Catalog) (schema pfx : String)
    (table sot : Option String) :
    (fetchCompletionsPure cat schema pfx table sot).status = "success" := by
  unfold fetchCompletionsPure
  split
  · split <;> rfl
  · split <;> rfl

theorem run_connLog (db : DbModel) (schema pfx : String)
    (table sot : Option String) :
    (fetchCompletionsRun db schema pfx table sot).2.openNow = 0 ∧
      (fetchCompletionsRun db schema pfx table sot).2.opens ≤ 1 := by
  unfold fetchCompletionsRun
  cases db.connectRaises <;> simp

theorem run_ok_status {db : DbModel} {schema pfx : String}
    {table sot : Option String} {env : Envelope} {log : ConnLog}
    (h : fetchCompletionsRun db schema pfx table sot = (Except.ok env, log)) :
    env.status = "success" := by
  unfold fetchCompletionsRun at h
  cases hc : db.connectRaises with
  | some e => rw [hc] at h; simp at h
  | none =>
    rw [hc] at h
    cases hq : db.queryRaises with
    | some e => rw [hq] at h; simp at h
    | none =>
      rw [hq] at h
      simp only [Prod.mk.injEq, Except.ok.injEq] at h
      rw [← h.1]
      exact fetchPure_status _ _ _ _ _

/-! ## Claim C7 -/

/-- C7: for every request that reaches the database lookup, the returned
envelope never has both `tables` and `columns` non-empty — each dispatch
branch of `_fetch_completions` fills at most one of the two lists and the
other remains the empty list. -/
theorem C7_never_both_nonempty (cat : Catalog) (schema pfx : String)
    (table sot : Option String) :
    (fetchCompletionsPure cat schema pfx table sot).tables = [] ∨
      (fetchCompletionsPure cat schema pfx table sot).columns = [] := by
  unfold fetchCompletionsPure
  split
  · split
    · exact Or.inr rfl
    · exact Or.inl rfl
  · split
    · exact Or.inl rfl
    · exact Or.inr rfl

/-! ## Claim C8 -/

/-- C8: when `schema_or_table` is present (truthy), the `table` parameter is
ignored — the result is the same for any two values of `table`; and when
`schema_or_table` is absent (missing or empty), the request behaves exactly
as a plain `table` request, i.e. the `table`-only branch is what runs. -/
theorem C8_table_ignored_when_sot (cat : Catalog) (schema pfx : String)
    (sot : Option String) :
    (pyTruthy sot = true → ∀ t t' : Option String,
        fetchCompletionsPure cat schema pfx t sot
          = fetchCompletionsPure cat schema pfx t' sot) ∧
    (pyTruthy sot = false → ∀ t : Option String,
        fetchCompletionsPure cat schema pfx t sot
          = fetchCompletionsPure cat schema pfx t none) := by
  constructor
  · intro h t t'
    simp [fetchCompletionsPure, h]
  · intro h t
    simp [fetchCompletionsPure, h, pyTruthy_none]

/-- Witness for C8 at a concrete catalog and request. -/
theorem C8_witness :
    fetchCompletionsPure ⟨["public"], [], []⟩ "public" "" (some "a") (some "s")
      = fetchCompletionsPure ⟨["public"], [], []⟩ "public" "" (some "b") (some "s") :=
  (C8_table_ignored_when_sot ⟨["public"], [], []⟩ "public" "" (some "s")).1
    (by decide) (some "a") (some "b")

/-! ## Claim C2 -/

theorem fetchPure_sot_not_schema (cat : Catalog) (schema pfx s : String)
    (t : Option String) (hne : s ≠ "")
    (h : querySchemaExists cat (sqlLower s) = false) :
    fetchCompletionsPure cat schema pfx t (some s)
      = fetchCompletionsPure cat schema pfx (some s) none := by
  have ht := pyTruthy_some_of_ne hne
  simp [fetchCompletionsPure, ht, h, pyTruthy_none, pyStr]

theorem run_sot_not_schema (db : DbModel) (schema pfx s : String)
    (t : Option String) (hne : s ≠ "")
    (h : querySchemaExists db.catalog (sqlLower s) = false) :
    fetchCompletionsRun db schema pfx t (some s)
      = fetchCompletionsRun db schema pfx (some s) none := by
  cases hc : db.connectRaises <;> cases hq : db.queryRaises <;>
    simp [fetchCompletionsRun, hc, hq,
      fetchPure_sot_not_schema db.catalog schema pfx s t hne h]

/-- C2: a request whose `schema_or_table` is present but names no existing
schema (case-insensitively) is answered exactly like the same request with
`table` set to that value and `schema_or_table` absent: columns of that
table within the configured schema, filtered by the request prefix, with
`tables` empty — the two handler results are equal outright. -/
theorem C2_sot_falls_back_to_table (w : World) (req : Request) (s : String)
    (hs : req.schema_or_table = some s) (hne : s ≠ "")
    (hnot : querySchemaExists w.db.catalog (sqlLower s) = false) :
    handlerGet w req
      = handlerGet w { req with table := some s, schema_or_table := none } := by
  obtain ⟨du, pf, sc, tb, so⟩ := req
  simp only at hs
  subst hs
  simp only [handlerGet, resolveDbUrl, reqSchema, reqPfx]
  rw [run_sot_not_schema w.db _ _ s tb hne hnot]

/-- Witness for C2: concrete catalog where `"users"` is not a schema. -/
theorem C2_witness :
    handlerGet
        ⟨true, some "postgres://db", ⟨⟨["public"], [], [⟨"public", "users", "id", "integer", 1⟩]⟩, none, none⟩⟩
        ⟨none, none, none, none, some "users"⟩
      = handlerGet
        ⟨true, some "postgres://db", ⟨⟨["public"], [], [⟨"public", "users", "id", "integer", 1⟩]⟩, none, none⟩⟩
        ⟨none, none, none, some "users", none⟩ :=
  C2_sot_falls_back_to_table
    ⟨true, some "postgres://db", ⟨⟨["public"], [], [⟨"public", "users", "id", "integer", 1⟩]⟩, none, none⟩⟩
    ⟨none, none, none, none, some "users"⟩ "users" rfl (by decide) (by decide)

/-! ## Claim C5 -/

/-- C5: when the driver is available but no connection string is resolvable
(`db_url` absent and `POSTGRES_URL` unset), the handler answers HTTP 200
with `status: "success"`, empty `tables` and `columns`, and the non-empty
message `"No database URL provided"`, and never opens a connection. -/
theorem C5_no_url_degrades_gracefully (w : World) (req : Request)
    (hav : w.psycopg2Available = true)
    (hq : req.db_url = none) (henv : w.postgresUrlEnv = none) :
    (handlerGet w req).1.httpStatus = 200 ∧
    (handlerGet w req).1.body.status = "success" ∧
    (handlerGet w req).1.body.tables = some [] ∧
    (handlerGet w req).1.body.columns = some [] ∧
    (handlerGet w req).1.body.message = some "No database URL provided" ∧
    "No database URL provided" ≠ "" ∧
    (handlerGet w req).2.opens = 0 := by
  simp [handlerGet, resolveDbUrl, hav, hq, henv, pyTruthy_none]

/-- Witness for C5 at a concrete world and request. -/
theorem C5_witness :
    (handlerGet ⟨true, none, ⟨⟨[], [], []⟩, none, none⟩⟩ ⟨none, none, none, none, none⟩).1.httpStatus = 200 ∧
    (handlerGet ⟨true, none, ⟨⟨[], [], []⟩, none, none⟩⟩ ⟨none, none, none, none, none⟩).1.body.status = "success" ∧
    (handlerGet ⟨true, none, ⟨⟨[], [], []⟩, none, none⟩⟩ ⟨none, none, none, none, none⟩).1.body.tables = some [] ∧
    (handlerGet ⟨true, none, ⟨⟨[], [], []⟩, none, none⟩⟩ ⟨none, none, none, none, none⟩).1.body.columns = some [] ∧
    (handlerGet ⟨true, none, ⟨⟨[], [], []⟩, none, none⟩⟩ ⟨none, none, none, none, none⟩).1.body.message = some "No database URL provided" ∧
    "No database URL provided" ≠ "" ∧
    (handlerGet ⟨true, none, ⟨⟨[], [], []⟩, none, none⟩⟩ ⟨none, none, none, none, none⟩).2.opens = 0 :=
  C5_no_url_degrades_gracefully ⟨true, none, ⟨⟨[], [], []⟩, none, none⟩⟩
    ⟨none, none, none, none, none⟩ rfl rfl rfl

/-! ## Claim C9 -/

/-- C9: on every exit path of `_fetch_completions` the `finally` block
leaves no connection open (at most one was ever opened, and none if
`connect` itself raised), and the handler as a whole returns with zero open
connections on every path. -/
theorem C9_connection_always_released (db : DbModel) (schema pfx : String)
    (table sot : Option String) (w : World) (req : Request) :
    (fetchCompletionsRun db schema pfx table sot).2.openNow = 0 ∧
    (fetchCompletionsRun db schema pfx table sot).2.opens ≤ 1 ∧
    (handlerGet w req).2.openNow = 0 := by
  refine ⟨(run_connLog db schema pfx table sot).1,
    (run_connLog db schema pfx table sot).2, ?_⟩
  unfold handlerGet
  split
  · rfl
  · split
    · rfl
    · split
      all_goals rename_i heq
      all_goals
        have h := (run_connLog w.db (reqSchema req) (reqPfx req)
          req.table req.schema_or_table).1
      all_goals rw [heq] at h
      all_goals exact h

/-! ## Claim C6 -/

theorem splitNl_ne_nil (l : List Char) : splitNl l ≠ [] := by
  cases l with
  | nil => simp [splitNl]
  | cons c cs =>
    simp only [splitNl]
    split
    · simp
    · split <;> simp

/-- `split('\n')[0]` is the longest newline-free leading segment. -/
theorem splitNl_head_eq_takeWhile (l : List Char) :
    (splitNl l).headD [] = l.takeWhile (fun c => c != '\n') := by
  induction l with
  | nil => rfl
  | cons c cs ih =>
    by_cases hc : c = '\n'
    · subst hc
      simp [splitNl, List.takeWhile_cons]
    · simp only [splitNl, if_neg hc]
      cases hsp : splitNl cs with
      | nil => exact absurd hsp (splitNl_ne_nil cs)
      | cons g gs =>
        have hg : g = cs.takeWhile (fun c => c != '\n') := by
          rw [← ih, hsp]; rfl
        have hcb : (c != '\n') = true := by simp [hc]
        simp [List.takeWhile_cons, hcb, hg]

theorem pyFirstLine_eq (s : String) :
    pyFirstLine s = ⟨s.data.takeWhile (fun c => c != '\n')⟩ := by
  unfold pyFirstLine
  rw [splitNl_head_eq_takeWhile]

theorem takeWhile_no_newline (m : String) :
    ∀ c ∈ (String.mk (m.data.takeWhile (fun c => c != '\n'))).data, c ≠ '\n' := by
  intro c hc
  have hp := List.mem_takeWhile_imp hc
  simpa using hp

/-- C6: when the driver raises a `psycopg2.Error` — at connect time or at
query time — the handler answers HTTP 500 with `status: "error"`, empty
`tables` and `columns`, and a message that is `"Database error: "` followed
by exactly the first line of the error text (its longest newline-free
leading segment, so no later line leaks). -/
theorem C6_driver_error_response (w : World) (req : Request) (m : String)
    (hav : w.psycopg2Available = true)
    (hurl : pyTruthy (resolveDbUrl w req) = true)
    (herr : w.db.connectRaises = some (PyExn.pgError m) ∨
      (w.db.connectRaises = none ∧ w.db.queryRaises = some (PyExn.pgError m))) :
    (handlerGet w req).1.httpStatus = 500 ∧
    (handlerGet w req).1.body.status = "error" ∧
    (handlerGet w req).1.body.tables = some [] ∧
    (handlerGet w req).1.body.columns = some [] ∧
    (handlerGet w req).1.body.message
      = some ("Database error: " ++ String.mk (m.data.takeWhile (fun c => c != '\n'))) ∧
    (∀ c ∈ (String.mk (m.data.takeWhile (fun c => c != '\n'))).data, c ≠ '\n') := by
  have hrun1 : (fetchCompletionsRun w.db (reqSchema req) (reqPfx req)
      req.table req.schema_or_table).1 = Except.error (PyExn.pgError m) := by
    rcases herr with h | ⟨h1, h2⟩
    · simp [fetchCompletionsRun, h]
    · simp [fetchCompletionsRun, h1, h2]
  rcases hfr : fetchCompletionsRun w.db (reqSchema req) (reqPfx req)
      req.table req.schema_or_table with ⟨res, log⟩
  rw [hfr] at hrun1
  simp only at hrun1
  subst hrun1
  refine ⟨?_, ?_, ?_, ?_, ?_, takeWhile_no_newline m⟩ <;>
    simp [handlerGet, hav, hurl, hfr, pyFirstLine_eq]

/-- Witness for C6: a connect-time error with a two-line message. -/
theorem C6_witness :
    (handlerGet ⟨true, some "postgres://db", ⟨⟨[], [], []⟩, some (PyExn.pgError "connection refused\nDETAIL: secret"), none⟩⟩
        ⟨none, none, none, none, none⟩).1.httpStatus = 500 ∧
    (handlerGet ⟨true, some "postgres://db", ⟨⟨[], [], []⟩, some (PyExn.pgError "connection refused\nDETAIL: secret"), none⟩⟩
        ⟨none, none, none, none, none⟩).1.body.status = "error" ∧
    (handlerGet ⟨true, some "postgres://db", ⟨⟨[], [], []⟩, some (PyExn.pgError "connection refused\nDETAIL: secret"), none⟩⟩
        ⟨none, none, none, none, none⟩).1.body.tables = some [] ∧
    (handlerGet ⟨true, some "postgres://db", ⟨⟨[], [], []⟩, some (PyExn.pgError "connection refused\nDETAIL: secret"), none⟩⟩
        ⟨none, none, none, none, none⟩).1.body.columns = some [] ∧
    (handlerGet ⟨true, some "postgres://db", ⟨⟨[], [], []⟩, some (PyExn.pgError "connection refused\nDETAIL: secret"), none⟩⟩
        ⟨none, none, none, none, none⟩).1.body.message
      = some ("Database error: " ++ String.mk (("connection refused\nDETAIL: secret" : String).data.takeWhile (fun c => c != '\n'))) ∧
    (∀ c ∈ (String.mk (("connection refused\nDETAIL: secret" : String).data.takeWhile (fun c => c != '\n'))).data, c ≠ '\n') :=
  C6_driver_error_response
    ⟨true, some "postgres://db", ⟨⟨[], [], []⟩, some (PyExn.pgError "connection refused\nDETAIL: secret"), none⟩⟩
    ⟨none, none, none, none, none⟩ "connection refused\nDETAIL: secret"
    rfl (by decide) (Or.inl rfl)

/-! ## Claim C10 -/

/-- C10: in the column lookups (the `table` branch and the
not-a-schema `schema_or_table` branch alike) the table name is matched
case-insensitively — two inputs with the same lower-cased form give equal
results — while the schema name is matched by exact, case-sensitive
equality: if no catalog column row's `table_schema` equals the configured
schema exactly (for instance when it differs only in letter case), the
result is the empty successful envelope, not an error. -/
theorem C10_table_ci_schema_exact (cat : Catalog) (schema pfx t t' : String)
    (hne : t ≠ "") (hne' : t' ≠ "") (hlow : sqlLower t = sqlLower t') :
    (fetchCompletionsPure cat schema pfx (some t) none
       = fetchCompletionsPure cat schema pfx (some t') none) ∧
    (querySchemaExists cat (sqlLower t) = false →
       fetchCompletionsPure cat schema pfx none (some t)
         = fetchCompletionsPure cat schema pfx none (some t')) ∧
    ((∀ c ∈ cat.columns, c.table_schema ≠ schema) →
       fetchCompletionsPure cat schema pfx (some t) none
         = { status := "success", tables := [], columns := [] }) := by
  have ht := pyTruthy_some_of_ne hne
  have ht' := pyTruthy_some_of_ne hne'
  refine ⟨?_, ?_, ?_⟩
  · simp [fetchCompletionsPure, ht, ht', pyTruthy_none, pyStr, hlow]
  · intro hs
    have hs' : querySchemaExists cat (sqlLower t') = false := by
      rw [← hlow]; exact hs
    simp [fetchCompletionsPure, ht, ht', pyTruthy_none, pyStr, hs, hs', hlow]
  · intro hnm
    have hq : queryColumns cat schema (sqlLower t) (pfx ++ "%") = [] := by
      unfold queryColumns
      have hf : cat.columns.filter (fun c =>
          c.table_schema == schema && sqlLower c.table_name == sqlLower t &&
          likeMatch (pfx ++ "%").data (sqlLower c.column_name).data) = [] :=
        List.filter_eq_nil_iff.mpr (fun c hc => by simp [hnm c hc])
      rw [hf]
      rfl
    simp [fetchCompletionsPure, ht, pyTruthy_none, pyStr, hq]

/-- Witness for C10: schema `"Public"` in the catalog, request schema
`"public"`, table spelled `"Users"` and `"USERS"`. -/
theorem C10_witness :
    (fetchCompletionsPure ⟨["Public"], [], [⟨"Public", "users", "id", "integer", 1⟩]⟩ "public" "" (some "Users") none
       = fetchCompletionsPure ⟨["Public"], [], [⟨"Public", "users", "id", "integer", 1⟩]⟩ "public" "" (some "USERS") none) ∧
    (fetchCompletionsPure ⟨["Public"], [], [⟨"Public", "users", "id", "integer", 1⟩]⟩ "public" "" none (some "Users")
       = fetchCompletionsPure ⟨["Public"], [], [⟨"Public", "users", "id", "integer", 1⟩]⟩ "public" "" none (some "USERS")) ∧
    (fetchCompletionsPure ⟨["Public"], [], [⟨"Public", "users", "id", "integer", 1⟩]⟩ "public" "" (some "Users") none
       = { status := "success", tables := [], columns := [] }) := by
  have h := C10_table_ci_schema_exact
    ⟨["Public"], [], [⟨"Public", "users", "id", "integer", 1⟩]⟩ "public" ""
    "Users" "USERS" (by decide) (by decide) (by decide)
  exact ⟨h.1, h.2.1 (by decide), h.2.2 (by decide)⟩

/-! ## Claim C1 -/

/-- For a metacharacter-free request prefix, the code's `LIKE` test is the
literal "starts with" test. -/
theorem likeMatch_pct_eq {pfx : String} (hw : noLikeWild pfx = true)
    (s : List Char) :
    likeMatch (pfx ++ "%").data s = pfx.data.isPrefixOf s := by
  have hd : (pfx ++ "%").data = pfx.data ++ ['%'] := by
    rw [String.data_append]
  rw [hd, likeMatch_append_pct pfx.data (noLikeWild_spec hw)]

/-- Counterexample to C1 as stated: the catalog schema is spelled
`"Public"`, the request says `"public"`.  The existence probe matches
case-insensitively, so the schema branch runs, and the claim then demands
the schema's base table `"users"`; but the fetch query filters
`table_schema = 'public'` case-sensitively and returns nothing. -/
theorem C1_counterexample :
    pyTruthy (some "public") = true ∧
    querySchemaExists ⟨["Public"], [⟨"Public", "users", "BASE TABLE"⟩], []⟩
      (sqlLower "public") = true ∧
    claimedSchemaTables ⟨["Public"], [⟨"Public", "users", "BASE TABLE"⟩], []⟩
      "public" "" = [⟨"users", "table"⟩] ∧
    (fetchCompletionsPure ⟨["Public"], [⟨"Public", "users", "BASE TABLE"⟩], []⟩
      "public" "" none (some "public")).tables = [] ∧
    ([] : List TableEntry) ≠ [⟨"users", "table"⟩] := by
  decide

/-- C1 as amended: when `schema_or_table` is present and a schema of that
name exists case-insensitively, the response's `tables` list holds exactly
the base tables and views whose `table_schema` equals `schema_or_table`
*exactly* (so a request differing from the catalog spelling only in case
selects nothing), filtered — for a prefix free of `LIKE` metacharacters —
to lower-cased names starting with the prefix, and `columns` stays
empty. -/
theorem C1_amended_schema_branch (cat : Catalog) (schema pfx : String)
    (table : Option String) (s : String) (hne : s ≠ "")
    (hex : querySchemaExists cat (sqlLower s) = true)
    (hw : noLikeWild pfx = true) :
    (fetchCompletionsPure cat schema pfx table (some s)).tables
      = amendedSchemaTables cat s pfx ∧
    (fetchCompletionsPure cat schema pfx table (some s)).columns = [] := by
  have ht := pyTruthy_some_of_ne hne
  constructor
  · simp only [fetchCompletionsPure, ht, pyStr, hex, if_true]
    unfold queryTables amendedSchemaTables
    congr 1
    congr 1
    apply List.filter_congr
    intro t _
    rw [likeMatch_pct_eq hw]
  · simp [fetchCompletionsPure, ht, hex, pyStr]

/-- Witness for the amended C1 at a concrete catalog. -/
theorem C1_amended_witness :
    (fetchCompletionsPure ⟨["public"], [⟨"public", "users", "BASE TABLE"⟩, ⟨"public", "events", "VIEW"⟩], []⟩
        "x" "u" none (some "public")).tables
      = amendedSchemaTables ⟨["public"], [⟨"public", "users", "BASE TABLE"⟩, ⟨"public", "events", "VIEW"⟩], []⟩
        "public" "u" ∧
    (fetchCompletionsPure ⟨["public"], [⟨"public", "users", "BASE TABLE"⟩, ⟨"public", "events", "VIEW"⟩], []⟩
        "x" "u" none (some "public")).columns = [] :=
  C1_amended_schema_branch
    ⟨["public"], [⟨"public", "users", "BASE TABLE"⟩, ⟨"public", "events", "VIEW"⟩], []⟩
    "x" "u" none "public" (by decide) (by decide) (by decide)

/-! ## Claim C3 -/

theorem run_ok_eq {db : DbModel} {schema pfx : String}
    {table sot : Option String} {env : Envelope} {log : ConnLog}
    (h : fetchCompletionsRun db schema pfx table sot = (Except.ok env, log)) :
    env = fetchCompletionsPure db.catalog schema pfx table sot := by
  unfold fetchCompletionsRun at h
  cases hc : db.connectRaises with
  | some e => rw [hc] at h; simp at h
  | none =>
    rw [hc] at h
    cases hq : db.queryRaises with
    | some e => rw [hq] at h; simp at h
    | none =>
      rw [hq] at h
      simp only [Prod.mk.injEq, Except.ok.injEq] at h
      exact h.1.symm

/-- Counterexample to C3 as stated: the missing-driver error response
(`PSYCOPG2_AVAILABLE` false) carries only `status` and `message` — its JSON
body has no `tables` or `columns` key at all, rather than empty arrays. -/
theorem C3_counterexample :
    (handlerGet ⟨false, none, ⟨⟨[], [], []⟩, none, none⟩⟩
      ⟨none, none, none, none, none⟩).1.body.status = "error" ∧
    (handlerGet ⟨false, none, ⟨⟨[], [], []⟩, none, none⟩⟩
      ⟨none, none, none, none, none⟩).1.body.tables = none ∧
    (handlerGet ⟨false, none, ⟨⟨[], [], []⟩, none, none⟩⟩
      ⟨none, none, none, none, none⟩).1.body.columns = none ∧
    (none : Option (List TableEntry)) ≠ some [] := by
  decide

/-- C3 as amended: once the driver is available, every response with
`status: "error"` (database-driver errors and unexpected errors alike)
carries `tables` and `columns` fields that are both empty arrays; only the
missing-driver response omits the two fields. -/
theorem C3_amended_errors_empty (w : World) (req : Request)
    (hav : w.psycopg2Available = true)
    (herr : (handlerGet w req).1.body.status = "error") :
    (handlerGet w req).1.body.tables = some [] ∧
    (handlerGet w req).1.body.columns = some [] := by
  have hA : (!w.psycopg2Available) = false := by rw [hav]; rfl
  by_cases hB : pyTruthy (resolveDbUrl w req) = true
  · rcases hfr : fetchCompletionsRun w.db (reqSchema req) (reqPfx req)
        req.table req.schema_or_table with ⟨res, log⟩
    cases res with
    | ok env =>
      have henv := run_ok_eq hfr
      have hs2 : env.status = "success" := by
        rw [henv]; exact fetchPure_status _ _ _ _ _
      simp only [handlerGet, hA, Bool.false_eq_true, if_false, hB,
        Bool.not_true, hfr] at herr
      rw [hs2] at herr
      exact absurd herr (by decide)
    | error e =>
      cases e with
      | pgError m => simp [handlerGet, hA, hB, hfr]
      | otherError m => simp [handlerGet, hA, hB, hfr]
  · have hB' : pyTruthy (resolveDbUrl w req) = false := by
      cases hx : pyTruthy (resolveDbUrl w req)
      · rfl
      · exact absurd hx hB
    simp [handlerGet, hA, hB'] at herr

/-- Witness for the amended C3: a query-time driver error. -/
theorem C3_amended_witness :
    (handlerGet ⟨true, some "postgres://db", ⟨⟨[], [], []⟩, none, some (PyExn.otherError "oops")⟩⟩
      ⟨none, none, none, none, none⟩).1.body.tables = some [] ∧
    (handlerGet ⟨true, some "postgres://db", ⟨⟨[], [], []⟩, none, some (PyExn.otherError "oops")⟩⟩
      ⟨none, none, none, none, none⟩).1.body.columns = some [] :=
  C3_amended_errors_empty
    ⟨true, some "postgres://db", ⟨⟨[], [], []⟩, none, some (PyExn.otherError "oops")⟩⟩
    ⟨none, none, none, none, none⟩ rfl (by decide)

/-! ## Claim C4 -/

/-- Counterexample to C4 as stated: the quantifier "every possible prefix
string" includes prefixes containing SQL `LIKE` metacharacters.  With
prefix `a_` (already lower-case) the pattern `a_%` matches the table name
`ab` — `_` matches any character — yet `"ab"` does not start with the
two-character string `"a_"`. -/
theorem C4_counterexample :
    (⟨none, some "a_", none, none, none⟩ : Request).table = none ∧
    (⟨none, some "a_", none, none, none⟩ : Request).schema_or_table = none ∧
    reqPfx ⟨none, some "a_", none, none, none⟩ = "a_" ∧
    (handlerGet
        ⟨true, some "postgres://db", ⟨⟨["public"], [⟨"public", "ab", "BASE TABLE"⟩], []⟩, none, none⟩⟩
        ⟨none, some "a_", none, none, none⟩).1.body.tables
      = some [⟨"ab", "table"⟩] ∧
    ("a_".data.isPrefixOf (sqlLower "ab").data) = false := by
  decide

/-- C4 as amended: for every request with no `table` and no
`schema_or_table` whose lower-cased prefix is free of `LIKE`
metacharacters (`%`, `_`, `\`), every table name in the returned `tables`
list has a lower-cased form starting with that prefix, and the `columns`
list carries no entries on any path. -/
theorem C4_amended_prefix_filter (w : World) (req : Request)
    (ht : req.table = none) (hs : req.schema_or_table = none)
    (hw : noLikeWild (reqPfx req) = true) :
    (∀ e ∈ ((handlerGet w req).1.body.tables).getD [],
        (reqPfx req).data.isPrefixOf (sqlLower e.name).data = true) ∧
    ((handlerGet w req).1.body.columns).getD [] = [] := by
  cases hav : w.psycopg2Available with
  | false =>
    constructor
    · intro e he
      simp [handlerGet, hav] at he
    · simp [handlerGet, hav]
  | true =>
    have hA : (!w.psycopg2Available) = false := by rw [hav]; rfl
    by_cases hB : pyTruthy (resolveDbUrl w req) = true
    · rcases hfr : fetchCompletionsRun w.db (reqSchema req) (reqPfx req)
          req.table req.schema_or_table with ⟨res, log⟩
      cases res with
      | ok env =>
        have henv := run_ok_eq hfr
        rw [ht, hs] at henv
        have htab : env.tables
            = (queryTables w.db.catalog (reqSchema req)
                ((reqPfx req) ++ "%")).map rowToTableEntry := by
          rw [henv]; simp [fetchCompletionsPure, pyTruthy_none]
        have hcol : env.columns = [] := by
          rw [henv]; simp [fetchCompletionsPure, pyTruthy_none]
        constructor
        · intro e he
          simp only [handlerGet, hA, Bool.false_eq_true, if_false, hB,
            Bool.not_true, hfr, Option.getD_some] at he
          rw [htab] at he
          rcases List.mem_map.mp he with ⟨r, hr, hre⟩
          have hq := queryTables_mem.mp hr
          have hlm : likeMatch ((reqPfx req) ++ "%").data
              (sqlLower r.table_name).data = true := by
            have hq2 := hq.2
            rw [Bool.and_eq_true] at hq2
            exact hq2.2
          rw [likeMatch_pct_eq hw] at hlm
          rw [← hre]
          exact hlm
        · simp [handlerGet, hA, hB, hfr, hcol]
      | error e =>
        cases e with
        | pgError m =>
          constructor
          · intro e he
            simp [handlerGet, hA, hB, hfr] at he
          · simp [handlerGet, hA, hB, hfr]
        | otherError m =>
          constructor
          · intro e he
            simp [handlerGet, hA, hB, hfr] at he
          · simp [handlerGet, hA, hB, hfr]
    · have hB' : pyTruthy (resolveDbUrl w req) = false := by
        cases hx : pyTruthy (resolveDbUrl w req)
        · rfl
        · exact absurd hx hB
      constructor
      · intro e he
        simp [handlerGet, hA, hB'] at he
      · simp [handlerGet, hA, hB']

/-- Witness for the amended C4: prefix `a` really selects only names
starting with `a`. -/
theorem C4_amended_witness :
    (reqPfx ⟨none, some "a", none, none, none⟩).data.isPrefixOf
      (sqlLower "ab").data = true ∧
    ((handlerGet
        ⟨true, some "postgres://db", ⟨⟨["public"], [⟨"public", "ab", "BASE TABLE"⟩], []⟩, none, none⟩⟩
        ⟨none, some "a", none, none, none⟩).1.body.columns).getD [] = [] := by
  have h := C4_amended_prefix_filter
    ⟨true, some "postgres://db", ⟨⟨["public"], [⟨"public", "ab", "BASE TABLE"⟩], []⟩, none, none⟩⟩
    ⟨none, some "a", none, none, none⟩ rfl rfl (by decide)
  exact ⟨h.1 ⟨"ab", "table"⟩ (by decide), h.2⟩

end JlDbComp
